import Mathlib

/-!
Verification of the Feed Ranking & Diversity Sampling Engine
(`services/feedAlgorithm.js`).

The JavaScript source is shallowly embedded: numbers are modelled by `ℝ`
(JS floats), engagement counters by `ℕ`, timestamps (millisecond epochs)
by `ℝ`, and JS `undefined`/optional fields by `Option`.  Fields whose JS
truthiness test is `if (x)` on a string are modelled as `String` with
emptiness standing for absent/falsy (both behave identically in the
source), and `if (x)` on an array is modelled as a plain list (an absent
array and an empty array behave identically in every branch of the
source).  The external document store (`User.findById`, the aggregation
pipelines of `fetchCandidatePosts`, `getTrendingPosts`,
`getDiscoveryFeed`) is abstracted as function parameters, as the spec
declares retrieval an external collaborator outside the core.
-/

/-- Author summary joined onto a candidate post
(`$lookup`/`User.findById` projection: `_id`, `rank`, `isVerified`,
`followers`). -/
structure Author where
  _id : String
  rank : Option String
  isVerified : Bool
  followers : Option (List String)
deriving DecidableEq

/-- Viewer record (`User.findById(userId).select('following followers rank score')`).
Only `_id` and `following` are consulted by the scoring code. -/
structure User where
  _id : String
  following : Option (List String)
deriving DecidableEq

/-- A candidate post.  `createdAt` and `popularityScore` are JS numbers;
counters default to `0` (`|| 0`); string-valued optional fields use `""`
for absent (same truthiness behaviour as `undefined` in the source). -/
structure Post where
  author : Option Author
  content : String
  media : List String
  tags : List String
  likesCount : ℕ
  commentsCount : ℕ
  viewsCount : ℕ
  createdAt : ℝ
  locationName : String
  linkPreviewUrl : String
  pollQuestion : String
  hasContentWarning : Bool
  popularityScore : ℝ

/-- Scoring context built by `generateFeed`; `seenAuthors` is `none` when
the default `context = {}` is used (then the novelty boost is skipped,
since `context.seenAuthors` is falsy). -/
structure FeedContext where
  seenAuthors : Option (List String)
  seenTags : List String

/-- `this.HALF_LIFE_HOURS = 24`. -/
noncomputable def HALF_LIFE_HOURS : ℝ := 24

/-- `this.TIME_DECAY_FACTOR = 0.5`. -/
noncomputable def TIME_DECAY_FACTOR : ℝ := 0.5

/-- `this.MIN_SCORE = 0.1`. -/
noncomputable def MIN_SCORE : ℝ := 0.1

/-- `this.WEIGHTS.RECENCY`. -/
noncomputable def W_RECENCY : ℝ := 0.20

/-- `this.WEIGHTS.ENGAGEMENT`. -/
noncomputable def W_ENGAGEMENT : ℝ := 0.25

/-- `this.WEIGHTS.RELATIONSHIP`. -/
noncomputable def W_RELATIONSHIP : ℝ := 0.25

/-- `this.WEIGHTS.QUALITY`. -/
noncomputable def W_QUALITY : ℝ := 0.15

/-- `this.WEIGHTS.RELEVANCE`. -/
noncomputable def W_RELEVANCE : ℝ := 0.15

/-- `calculateRecencyScore(post)`, with `Date.now()` passed explicitly as
`now` (milliseconds). -/
noncomputable def calculateRecencyScore (now : ℝ) (post : Post) : ℝ :=
  let ageInHours := (now - post.createdAt) / (1000 * 60 * 60)
  let halfLives := ageInHours / HALF_LIFE_HOURS
  Real.exp (-halfLives * TIME_DECAY_FACTOR)

/-- `calculateEngagementScore(post)`; `Math.log10 x` is `Real.logb 10 x`. -/
noncomputable def calculateEngagementScore (post : Post) : ℝ :=
  let baseEngagement : ℝ := (post.likesCount : ℝ) * 1 + (post.commentsCount : ℝ) * 2
  let normalizedEngagement := Real.logb 10 (baseEngagement + 1) / 5
  if 0 < post.viewsCount then
    let engagementRate := baseEngagement / (post.viewsCount : ℝ)
    (normalizedEngagement + engagementRate) / 2
  else
    normalizedEngagement

/-- The `rankBonus` lookup table inside `calculateRelationshipScore`;
`rankBonus[rank] || 0` yields `0` for a rank outside the table. -/
noncomputable def rankBonus (rank : String) : ℝ :=
  if rank = "Rookie" then 0
  else if rank = "Bronze" then 0.05
  else if rank = "Silver" then 0.1
  else if rank = "Gold" then 0.15
  else if rank = "Platinum" then 0.2
  else if rank = "Diamond" then 0.25
  else if rank = "Master" then 0.3
  else if rank = "Grandmaster" then 0.35
  else if rank = "Legend" then 0.4
  else if rank = "Mythic" then 0.5
  else 0

/-- The ten rank tiers, lowest to highest, in the order of the source's
`rankBonus` object literal. -/
def rankTiers : List String :=
  ["Rookie", "Bronze", "Silver", "Gold", "Platinum",
   "Diamond", "Master", "Grandmaster", "Legend", "Mythic"]

/-- JS truthiness of an optional string field (`undefined` and `""` are
falsy). -/
def strTruthy (s : Option String) : Bool :=
  match s with
  | none => false
  | some v => !v.isEmpty

/-- `calculateRelationshipScore(post, user)`.  The running
`(score, factors)` pair of the source's mutable locals is threaded
through explicitly. -/
noncomputable def calculateRelationshipScore (post : Post) (user : Option User) : ℝ :=
  match user, post.author with
  | none, _ => 0.1
  | some _, none => 0.1
  | some u, some a =>
    if a._id = u._id then 1
    else
      let sf1 : ℝ × ℕ :=
        if a._id ∈ u.following.getD [] then
          let sfF : ℝ × ℕ := (0.1 + 0.6, 0 + 1)
          if u._id ∈ a.followers.getD [] then (sfF.1 + 0.2, sfF.2 + 1) else sfF
        else (0.1, 0)
      let sf2 : ℝ × ℕ :=
        if strTruthy a.rank then (sf1.1 + rankBonus (a.rank.getD ""), sf1.2 + 1) else sf1
      if 0 < sf2.2 then sf2.1 / (sf2.2 : ℝ) else sf2.1

/-- Number of elements of `content.split(/\s+/)`: a run-counting
formulation.  The regex split produces exactly one element per maximal
whitespace run plus one (a leading/trailing run contributes an empty
element), so the length is `1 + number of maximal whitespace runs`.
`wsRunsAux prevWs cs` counts the maximal whitespace runs of `cs` given
whether the preceding character was whitespace. -/
def wsRunsAux : Bool → List Char → ℕ
  | _, [] => 0
  | prevWs, c :: cs =>
    if c.isWhitespace then (if prevWs then 0 else 1) + wsRunsAux true cs
    else wsRunsAux false cs

/-- `post.content.split(/\s+/).length`. -/
def wordCountJs (s : String) : ℕ := 1 + wsRunsAux false s.data

/-- The mutually exclusive content-length tiers of `calculateQualityScore`
(`>100` words +0.3, `>50` +0.2, `>20` +0.1, else nothing). -/
noncomputable def contentLengthBonus (wordCount : ℕ) : ℝ :=
  if 100 < wordCount then 0.3
  else if 50 < wordCount then 0.2
  else if 20 < wordCount then 0.1
  else 0

/-- One guarded `score += bonus; factors++;` step of
`calculateQualityScore`, acting on the `(score, factors)` pair. -/
noncomputable def qualityStep (cond : Bool) (bonus : ℝ) (sf : ℝ × ℕ) : ℝ × ℕ :=
  if cond then (sf.1 + bonus, sf.2 + 1) else sf

/-- `calculateQualityScore(post)`.  The nested `media.length > 1` branch
is written as a flat step since `1 < length` implies `0 < length`. -/
noncomputable def calculateQualityScore (post : Post) : ℝ :=
  let sf0 : ℝ × ℕ := (0, 0)
  let sf1 := qualityStep (decide (0 < post.media.length)) 0.3 sf0
  let sf2 := qualityStep (decide (1 < post.media.length)) 0.1 sf1
  let sf3 := qualityStep (!post.content.isEmpty)
    (contentLengthBonus (wordCountJs post.content)) sf2
  let sf4 := qualityStep (decide (0 < post.tags.length))
    (min ((post.tags.length : ℝ) * 0.05) 0.2) sf3
  let sf5 := qualityStep (!post.locationName.isEmpty) 0.1 sf4
  let sf6 := qualityStep (!post.linkPreviewUrl.isEmpty) 0.15 sf5
  let sf7 := qualityStep (!post.pollQuestion.isEmpty) 0.2 sf6
  let sf8 := qualityStep post.hasContentWarning 0.1 sf7
  let sf9 := qualityStep (post.author.elim false (fun a => a.isVerified)) 0.15 sf8
  if 0 < sf9.2 then sf9.1 / (sf9.2 : ℝ) else 0.1

/-- `calculateRelevanceScore(post, user)`: the constant stub. -/
noncomputable def calculateRelevanceScore (post : Post) (user : Option User) : ℝ := 0.1

open Classical in
/-- `applyBoosts(score, post, user, context)` with explicit `now`. -/
noncomputable def applyBoosts (now score : ℝ) (post : Post) (user : Option User)
    (context : FeedContext) : ℝ :=
  let ageInHours := (now - post.createdAt) / (1000 * 60 * 60)
  let b1 := if ageInHours < 1 then score * 1.5
    else if ageInHours < 6 then score * 1.2
    else score
  let b2 := if 100 < post.popularityScore then b1 * 1.3 else b1
  match context.seenAuthors with
  | none => b2
  | some seen =>
    if post.author.elim false (fun a => decide (a._id ∈ seen)) then b2 else b2 * 1.1

/-- `calculatePostScore(post, user, context)`: the weighted sum of the
five factors, boosts, then `Math.min(100, Math.max(0, totalScore * 100))`. -/
noncomputable def calculatePostScore (now : ℝ) (post : Post) (user : Option User)
    (context : FeedContext) : ℝ :=
  let totalScore :=
    calculateRecencyScore now post * W_RECENCY +
    calculateEngagementScore post * W_ENGAGEMENT +
    calculateRelationshipScore post user * W_RELATIONSHIP +
    calculateQualityScore post * W_QUALITY +
    calculateRelevanceScore post user * W_RELEVANCE
  let boosted := applyBoosts now totalScore post user context
  min 100 (max 0 (boosted * 100))

/-- A `{post, score}` pair produced inside `generateFeed`. -/
structure ScoredPost where
  post : Post
  score : ℝ

/-- `post.author?._id?.toString()`: the key used by the diversity
sampler's `authorCounts` map (`none` for a post with no author record). -/
def authorKey (post : Post) : Option String := post.author.map (fun a => a._id)

/-- The descending-score ordering of `sort((a, b) => b.score - a.score)`:
`a` may come before `b` when `b.score ≤ a.score`. -/
def scoreGE (a b : ScoredPost) : Prop := b.score ≤ a.score

instance : IsTotal ScoredPost scoreGE := ⟨fun a b => le_total b.score a.score⟩

instance : IsTrans ScoredPost scoreGE := ⟨fun _ _ _ hab hbc => le_trans hbc hab⟩

/-- Scoring step of `generateFeed`:
`candidates.map(post => ({post, score: this.calculatePostScore(post, user, context)}))`.
In this typed embedding `post.author` is either a resolved summary or
absent, and `User.findById` of an absent id resolves to no user, so the
author re-resolution step leaves the post unchanged. -/
noncomputable def scoreCandidates (now : ℝ) (user : User) (context : FeedContext)
    (candidates : List Post) : List ScoredPost :=
  candidates.map (fun post => ⟨post, calculatePostScore now post (some user) context⟩)

open Classical in
/-- `scoredPosts.filter(item => item.score >= this.MIN_SCORE)`. -/
noncomputable def filterByMinScore (l : List ScoredPost) : List ScoredPost :=
  l.filter (fun item => MIN_SCORE ≤ item.score)

open Classical in
/-- `filteredPosts.sort((a, b) => b.score - a.score)`: a stable sort by
descending score. -/
noncomputable def sortByScoreDesc (l : List ScoredPost) : List ScoredPost :=
  l.insertionSort scoreGE

/-- The loop body of `applyDiversitySampling`, with the mutable
`result`, `authorCounts` and `tagCounts` threaded explicitly.  The
counter maps are total functions with default value `0`
(`counts.get(k) || 0`).  The `break` after reaching `limit * 2` pushed
items returns the accumulated result. -/
def diversityGo (limit : ℕ) :
    List ScoredPost → List ScoredPost → (Option String → ℕ) → (String → ℕ) →
    List ScoredPost
  | [], result, _, _ => result
  | item :: rest, result, authorCounts, tagCounts =>
    let aKey := authorKey item.post
    let authorFrequency := authorCounts aKey
    if 2 ≤ authorFrequency then
      diversityGo limit rest result authorCounts tagCounts
    else if item.post.tags.any (fun tag => decide (3 ≤ tagCounts tag)) then
      diversityGo limit rest result authorCounts tagCounts
    else
      let result' := result ++ [item]
      let authorCounts' := fun k => if k = aKey then authorFrequency + 1 else authorCounts k
      let tagCounts' := item.post.tags.foldl
        (fun m tag => fun k => if k = tag then m tag + 1 else m k) tagCounts
      if limit * 2 ≤ result'.length then result'
      else diversityGo limit rest result' authorCounts' tagCounts'

/-- `applyDiversitySampling(scoredPosts, limit)`. -/
def applyDiversitySampling (scoredPosts : List ScoredPost) (limit : ℕ) : List ScoredPost :=
  diversityGo limit scoredPosts [] (fun _ => 0) (fun _ => 0)

/-- Options destructured at the top of `generateFeed`
(`excludeIds` is destructured by the source but never used). -/
structure FeedOptions where
  page : ℕ
  limit : ℕ
  excludeIds : List String
  seenAuthors : List String
  seenTags : List String

/-- The `pagination` object of a `generateFeed` result. -/
structure Pagination where
  page : ℕ
  limit : ℕ
  total : ℕ
  hasMore : Bool
deriving DecidableEq

/-- The value returned by a successful `generateFeed` call. -/
structure FeedResult where
  posts : List Post
  scores : List ℝ
  pagination : Pagination

/-- The body of `generateFeed` after the viewer has been resolved and
the candidate pool fetched: score, filter, sort, diversity-sample,
slice `[skip, skip + limit)`, and assemble the result. -/
noncomputable def generateFeedCore (now : ℝ) (user : User) (candidates : List Post)
    (opts : FeedOptions) : FeedResult :=
  let skip := (opts.page - 1) * opts.limit
  let context : FeedContext := { seenAuthors := some opts.seenAuthors, seenTags := opts.seenTags }
  let scoredPosts := scoreCandidates now user context candidates
  let filteredPosts := filterByMinScore scoredPosts
  let sortedPosts := sortByScoreDesc filteredPosts
  let diversePosts := applyDiversitySampling sortedPosts opts.limit
  let paginatedPosts := (diversePosts.drop skip).take opts.limit
  { posts := paginatedPosts.map (fun item => item.post)
    scores := paginatedPosts.map (fun item => item.score)
    pagination :=
      { page := opts.page
        limit := opts.limit
        total := filteredPosts.length
        hasMore := decide (skip + opts.limit < filteredPosts.length) } }

/-- `generateFeed(userId, options)`.  `findUser` models `User.findById`
and `fetchCandidates` models `fetchCandidatePosts` (external store
queries); the `throw new Error('User not found')` on an unresolved
viewer becomes an `Except.error`. -/
noncomputable def generateFeed (findUser : String → Option User)
    (fetchCandidates : User → ℕ → List Post) (now : ℝ) (userId : String)
    (opts : FeedOptions) : Except String FeedResult :=
  match findUser userId with
  | none => .error "User not found"
  | some user => .ok (generateFeedCore now user (fetchCandidates user (opts.limit * 3)) opts)

/-- `getTrendingPosts(limit)`: a single store aggregation with no viewer
lookup at all; `queryTrending` models the aggregation. -/
def getTrendingPosts (queryTrending : ℕ → List Post) (limit : ℕ) : List Post :=
  queryTrending limit

/-- `getDiscoveryFeed(userId, limit)`: looks the viewer up and then reads
`user.following` with no null check, so an unresolved viewer id makes
the property access `user.following` throw a `TypeError` (modelled as an
`Except.error`); `queryDiscovery` models the aggregation over
`user.following || []`. -/
def getDiscoveryFeed (findUser : String → Option User)
    (queryDiscovery : List String → ℕ → List Post) (userId : String) (limit : ℕ) :
    Except String (List Post) :=
  match findUser userId with
  | none => .error "TypeError: Cannot read properties of null (reading 'following')"
  | some user => .ok (queryDiscovery (user.following.getD []) limit)

/-! ### Concrete objects used by witnesses and counterexamples -/

/-- An author with no rank, unverified, no followers list entries. -/
def author0 : Author := { _id := "a", rank := none, isVerified := false, followers := some [] }

/-- A viewer following nobody. -/
def user0 : User := { _id := "u", following := some [] }

/-- A bare post: no content, no media, no tags, zero counters, created at
epoch 0, no optional extras. -/
noncomputable def basePost : Post :=
  { author := some author0
    content := ""
    media := []
    tags := []
    likesCount := 0
    commentsCount := 0
    viewsCount := 0
    createdAt := 0
    locationName := ""
    linkPreviewUrl := ""
    pollQuestion := ""
    hasContentWarning := false
    popularityScore := 0 }

/-! ### C4: the author-rank bonus table -/

/-- Claim C4 (counterexample): the ten rank bonuses are not evenly
spread — the step from Legend (0.4) to Mythic (0.5) is 0.1, while the
step from Rookie (0) to Bronze (0.05) is 0.05. -/
theorem rankBonus_unevenStep_cx :
    rankBonus "Mythic" - rankBonus "Legend" ≠ rankBonus "Bronze" - rankBonus "Rookie" := by
  simp only [rankBonus, String.reduceEq, if_false, if_true]
  norm_num

/-- Claim C4 (amended): the author-rank bonus takes ten values, strictly
monotonically increasing from 0.0 at the lowest tier (Rookie) to 0.5 at
the highest (Mythic); consecutive tiers differ by 0.05 except for the
final step Legend to Mythic, which is 0.1 (so the spread is not even). -/
theorem rankBonusMonotone :
    rankTiers.length = 10 ∧
    rankBonus "Rookie" = 0 ∧
    rankBonus "Mythic" = 0.5 ∧
    rankTiers.Chain' (fun a b => rankBonus a < rankBonus b) ∧
    rankBonus "Mythic" - rankBonus "Legend" = 0.1 ∧
    rankBonus "Legend" - rankBonus "Grandmaster" = 0.05 := by
  refine ⟨rfl, ?_, ?_, ?_, ?_, ?_⟩ <;>
    simp only [rankTiers, List.chain'_cons, List.chain'_singleton, and_true, rankBonus,
      String.reduceEq, if_false, if_true] <;>
    norm_num

/-! ### C8: the recency factor -/

/-- Claim C8: the Recency factor equals
`exp (-(ageHours / 24) * 0.5)` where `ageHours = (now - createdAt) / 1h`;
it is 1 at age zero; and it is monotone: a post with a later (newer)
creation time never scores lower on Recency. -/
theorem recencyExpFormula :
    (∀ (now : ℝ) (post : Post), calculateRecencyScore now post =
      Real.exp (-(((now - post.createdAt) / (1000 * 60 * 60)) / 24) * 0.5)) ∧
    (∀ (now : ℝ) (post : Post), post.createdAt = now → calculateRecencyScore now post = 1) ∧
    (∀ (now : ℝ) (p q : Post), q.createdAt ≤ p.createdAt →
      calculateRecencyScore now q ≤ calculateRecencyScore now p) := by
  refine ⟨fun now post => ?_, fun now post h => ?_, fun now p q h => ?_⟩
  · simp [calculateRecencyScore, HALF_LIFE_HOURS, TIME_DECAY_FACTOR]
  · simp only [calculateRecencyScore, HALF_LIFE_HOURS, TIME_DECAY_FACTOR, h]
    norm_num [Real.exp_zero]
  · simp only [calculateRecencyScore, HALF_LIFE_HOURS, TIME_DECAY_FACTOR]
    apply Real.exp_le_exp.mpr
    have h36 : (0:ℝ) < 1000 * 60 * 60 := by norm_num
    nlinarith [h]

/-- Claim C8 (witness): at `now = 0` a post created at time 0 has
Recency exactly 1, and the monotonicity instance at equal posts holds. -/
theorem recencyExpFormula_witness :
    basePost.createdAt = (0:ℝ) ∧ calculateRecencyScore 0 basePost = 1 ∧
    basePost.createdAt ≤ basePost.createdAt ∧
    calculateRecencyScore 0 basePost ≤ calculateRecencyScore 0 basePost :=
  ⟨rfl, recencyExpFormula.2.1 0 basePost rfl, le_refl _,
    recencyExpFormula.2.2 0 basePost basePost (le_refl _)⟩

/-! ### C3: quality score of a bare short-content post -/

/-- A post whose only quality signal is a short, non-empty text. -/
noncomputable def shortTextPost : Post := { basePost with content := "hello world" }

/-- Claim C3 (amended): for a post with no media, no tags, no location,
no link preview, no poll, no content warning and an unverified author,
whose content is non-empty with at most 20 words, the Quality factor is
exactly 0 — the content check fires as a factor with a zero bonus, so
the quotient is `0 / 1`, and the 0.1 fallback is not reached. -/
theorem qualityShortContentZero :
    ∀ post : Post, post.media = [] → post.tags = [] → post.locationName = "" →
      post.linkPreviewUrl = "" → post.pollQuestion = "" → post.hasContentWarning = false →
      post.author.elim false (fun a => a.isVerified) = false →
      post.content.isEmpty = false → wordCountJs post.content ≤ 20 →
      calculateQualityScore post = 0 := by
  intro post hm ht hl hp hq hw hv hc hwc
  have hb : contentLengthBonus (wordCountJs post.content) = 0 := by
    unfold contentLengthBonus
    rw [if_neg (by omega), if_neg (by omega), if_neg (by omega)]
  simp +decide [calculateQualityScore, qualityStep, hm, ht, hl, hp, hq, hw, hv, hc, hb]

/-- Claim C3 (counterexample): the concrete post with content
"hello world" (2 words) and no other signals has Quality factor 0, not
the fallback 0.1 the claim asserts. -/
theorem qualityShortContent_cx :
    calculateQualityScore shortTextPost = 0 ∧ calculateQualityScore shortTextPost ≠ 0.1 := by
  have hb : contentLengthBonus (wordCountJs "hello world") = 0 := by
    have hwc : wordCountJs "hello world" = 2 := by decide
    unfold contentLengthBonus
    rw [hwc, if_neg (by omega), if_neg (by omega), if_neg (by omega)]
  have h : calculateQualityScore shortTextPost = 0 := by
    simp +decide [calculateQualityScore, qualityStep, shortTextPost, basePost, author0, hb]
  exact ⟨h, by rw [h]; norm_num⟩

/-- Claim C3 (witness): the amended theorem applied at the concrete
short-content post. -/
theorem qualityShortContentZero_witness :
    shortTextPost.media = [] ∧ shortTextPost.content.isEmpty = false ∧
    wordCountJs shortTextPost.content ≤ 20 ∧ calculateQualityScore shortTextPost = 0 :=
  ⟨rfl, by decide, by decide,
    qualityShortContentZero shortTextPost rfl rfl rfl rfl rfl rfl rfl (by decide) (by decide)⟩

/-! ### C10: unknown author ranks in the Relationship factor -/

/-- Claim C10: a truthy rank string outside the ten-tier table
contributes `rankBonus = 0` yet still increments the factor divisor, so
an author with an unknown rank never gets a higher Relationship factor
than the same author with no rank field at all. -/
theorem unknownRankNeverHelps :
    ∀ (post : Post) (a : Author) (u : User) (r : String),
      post.author = some a → a.rank = some r → r.isEmpty = false → r ∉ rankTiers →
      a._id ≠ u._id →
      rankBonus r = 0 ∧
      calculateRelationshipScore post (some u) ≤
        calculateRelationshipScore { post with author := some { a with rank := none } } (some u) := by
  intro post a u r ha hr hre hnotin hne
  have hnes : r ≠ "Rookie" ∧ r ≠ "Bronze" ∧ r ≠ "Silver" ∧ r ≠ "Gold" ∧ r ≠ "Platinum" ∧
      r ≠ "Diamond" ∧ r ≠ "Master" ∧ r ≠ "Grandmaster" ∧ r ≠ "Legend" ∧ r ≠ "Mythic" := by
    simp only [rankTiers, List.mem_cons, List.not_mem_nil, or_false, not_or] at hnotin
    exact hnotin
  obtain ⟨h1, h2, h3, h4, h5, h6, h7, h8, h9, h10⟩ := hnes
  have hrb : rankBonus r = 0 := by
    simp [rankBonus, h1, h2, h3, h4, h5, h6, h7, h8, h9, h10]
  refine ⟨hrb, ?_⟩
  simp only [calculateRelationshipScore, ha, hr, strTruthy, hre, Bool.not_false, if_true,
    Option.getD_some, hrb]
  by_cases hf : a._id ∈ u.following.getD []
  · by_cases hm : u._id ∈ a.followers.getD []
    · simp [hf, hm, hne]
      try norm_num
    · simp [hf, hm, hne]
      try norm_num
  · simp [hf, hne]
    try norm_num

/-- An author carrying a rank string outside the ten-tier table. -/
def challengerAuthor : Author :=
  { _id := "a", rank := some "Challenger", isVerified := false, followers := some [] }

/-- Claim C10 (witness): the theorem applied to the concrete unknown
rank "Challenger". -/
theorem unknownRankNeverHelps_witness :
    rankBonus "Challenger" = 0 ∧
    calculateRelationshipScore { basePost with author := some challengerAuthor } (some user0) ≤
      calculateRelationshipScore
        { basePost with author := some { challengerAuthor with rank := none } } (some user0) :=
  unknownRankNeverHelps { basePost with author := some challengerAuthor } challengerAuthor user0
    "Challenger" rfl rfl (by decide) (by decide) (by decide)

/-! ### C1: ranges of the five factors and of the final score -/

/-- A post whose base engagement (100) far exceeds its view count (1),
giving an engagement rate of 100. -/
noncomputable def viralPost : Post := { basePost with likesCount := 100, viewsCount := 1 }

/-- Claim C1 (counterexample): the Engagement factor of `viralPost`
exceeds 1 (it is at least 50), so not every factor lies in `[0,1]`. -/
theorem engagementExceedsOne_cx : 1 < calculateEngagementScore viralPost := by
  have h : calculateEngagementScore viralPost = (Real.logb 10 (100 + 1) / 5 + 100 / 1) / 2 := by
    simp [calculateEngagementScore, viralPost, basePost]
  rw [h]
  have hl : (0:ℝ) ≤ Real.logb 10 (100 + 1) := Real.logb_nonneg (by norm_num) (by norm_num)
  set x := Real.logb 10 (100 + 1) with hx
  linarith

/-- `rankBonus` always lies in `[0, 0.5]`. -/
lemma rankBonus_bounds (r : String) : 0 ≤ rankBonus r ∧ rankBonus r ≤ 0.5 := by
  unfold rankBonus
  split_ifs <;> norm_num

/-- The Relationship factor always lies in `[0, 1]`. -/
lemma relationship_bounds (post : Post) (user : Option User) :
    0 ≤ calculateRelationshipScore post user ∧ calculateRelationshipScore post user ≤ 1 := by
  rcases user with _ | u
  · simp only [calculateRelationshipScore]
    norm_num
  rcases ha : post.author with _ | a
  · simp only [calculateRelationshipScore, ha]
    norm_num
  simp only [calculateRelationshipScore, ha]
  by_cases hid : a._id = u._id
  · rw [if_pos hid]
    norm_num
  rw [if_neg hid]
  obtain ⟨hrb0, hrb1⟩ := rankBonus_bounds (a.rank.getD "")
  by_cases hf : a._id ∈ u.following.getD [] <;>
    by_cases hm : u._id ∈ a.followers.getD [] <;>
    by_cases hr : strTruthy a.rank <;>
    simp only [hf, hm, hr, if_true, if_false, Nat.cast_ofNat, Nat.cast_one] <;>
    norm_num <;>
    constructor <;>
    first
      | linarith
      | exact div_nonneg (by linarith) (by norm_num)
      | exact (div_le_one (by norm_num)).mpr (by linarith)

/-- A `score += bonus; factors++` step keeps `0 ≤ score ≤ 0.3 · factors`
when the bonus lies in `[0, 0.3]`. -/
lemma qualityStep_inv (c : Bool) (bonus : ℝ) (sf : ℝ × ℕ)
    (h : 0 ≤ sf.1 ∧ sf.1 ≤ 0.3 * (sf.2 : ℝ)) (hb : 0 ≤ bonus ∧ bonus ≤ 0.3) :
    0 ≤ (qualityStep c bonus sf).1 ∧
      (qualityStep c bonus sf).1 ≤ 0.3 * ((qualityStep c bonus sf).2 : ℝ) := by
  rcases c with _ | _
  · simpa [qualityStep] using h
  · simp only [qualityStep, if_true]
    constructor
    · linarith [h.1, hb.1]
    · push_cast
      linarith [h.2, hb.2]

/-- The final `factors > 0 ? score / factors : 0.1` step of the Quality
factor stays in `[0, 1]` given the running invariant. -/
lemma quality_final (sf : ℝ × ℕ) (h : 0 ≤ sf.1 ∧ sf.1 ≤ 0.3 * (sf.2 : ℝ)) :
    0 ≤ (if 0 < sf.2 then sf.1 / (sf.2 : ℝ) else 0.1) ∧
      (if 0 < sf.2 then sf.1 / (sf.2 : ℝ) else 0.1) ≤ 1 := by
  split_ifs with hpos
  · have hc : (0:ℝ) < (sf.2 : ℝ) := by exact_mod_cast hpos
    exact ⟨div_nonneg h.1 hc.le, (div_le_one hc).mpr (by linarith [h.2, hc.le])⟩
  · norm_num

/-- The Quality factor always lies in `[0, 1]`. -/
lemma quality_bounds (post : Post) :
    0 ≤ calculateQualityScore post ∧ calculateQualityScore post ≤ 1 := by
  have hcb : 0 ≤ contentLengthBonus (wordCountJs post.content) ∧
      contentLengthBonus (wordCountJs post.content) ≤ 0.3 := by
    unfold contentLengthBonus
    split_ifs <;> norm_num
  have htb : 0 ≤ min ((post.tags.length : ℝ) * 0.05) 0.2 ∧
      min ((post.tags.length : ℝ) * 0.05) 0.2 ≤ 0.3 :=
    ⟨le_min (by positivity) (by norm_num), le_trans (min_le_right _ _) (by norm_num)⟩
  have h0 : 0 ≤ (((0:ℝ), (0:ℕ))).1 ∧ (((0:ℝ), (0:ℕ))).1 ≤ 0.3 * ((((0:ℝ), (0:ℕ))).2 : ℝ) := by
    norm_num
  have i1 := qualityStep_inv (decide (0 < post.media.length)) 0.3 ((0:ℝ), (0:ℕ)) h0 (by norm_num)
  have i2 := qualityStep_inv (decide (1 < post.media.length)) 0.1 _ i1 (by norm_num)
  have i3 := qualityStep_inv (!post.content.isEmpty)
    (contentLengthBonus (wordCountJs post.content)) _ i2 hcb
  have i4 := qualityStep_inv (decide (0 < post.tags.length))
    (min ((post.tags.length : ℝ) * 0.05) 0.2) _ i3 htb
  have i5 := qualityStep_inv (!post.locationName.isEmpty) 0.1 _ i4 (by norm_num)
  have i6 := qualityStep_inv (!post.linkPreviewUrl.isEmpty) 0.15 _ i5 (by norm_num)
  have i7 := qualityStep_inv (!post.pollQuestion.isEmpty) 0.2 _ i6 (by norm_num)
  have i8 := qualityStep_inv post.hasContentWarning 0.1 _ i7 (by norm_num)
  have i9 := qualityStep_inv (post.author.elim false (fun a => a.isVerified)) 0.15 _ i8
    (by norm_num)
  simp only [calculateQualityScore]
  exact quality_final _ i9

/-- Claim C1 (amended): Recency is strictly positive and, for a post not
dated in the future, at most 1; Engagement is nonnegative (but not
bounded by 1, see the counterexample); Relationship and Quality lie in
`[0, 1]`; Relevance is the constant 0.1; and the final post-boost,
post-scale score always lies in `[0, 100]` thanks to the clamp —
but the weighted pre-boost combined score is not guaranteed to lie in
`[0, 1]`. -/
theorem factorAndFinalScoreBounds :
    (∀ (now : ℝ) (post : Post), 0 < calculateRecencyScore now post) ∧
    (∀ (now : ℝ) (post : Post), post.createdAt ≤ now → calculateRecencyScore now post ≤ 1) ∧
    (∀ post : Post, 0 ≤ calculateEngagementScore post) ∧
    (∀ (post : Post) (user : Option User),
      0 ≤ calculateRelationshipScore post user ∧ calculateRelationshipScore post user ≤ 1) ∧
    (∀ post : Post, 0 ≤ calculateQualityScore post ∧ calculateQualityScore post ≤ 1) ∧
    (∀ (post : Post) (user : Option User), calculateRelevanceScore post user = 0.1) ∧
    (∀ (now : ℝ) (post : Post) (user : Option User) (context : FeedContext),
      0 ≤ calculatePostScore now post user context ∧
        calculatePostScore now post user context ≤ 100) := by
  refine ⟨fun now post => ?_, fun now post h => ?_, fun post => ?_, relationship_bounds,
    quality_bounds, fun post user => rfl, fun now post user context => ?_⟩
  · unfold calculateRecencyScore
    exact Real.exp_pos _
  · unfold calculateRecencyScore HALF_LIFE_HOURS TIME_DECAY_FACTOR
    have harg : -((now - post.createdAt) / (1000 * 60 * 60) / 24) * 0.5 ≤ 0 := by
      have h1 : (0:ℝ) ≤ (now - post.createdAt) / (1000 * 60 * 60) / 24 := by
        apply div_nonneg (div_nonneg (by linarith) (by norm_num)) (by norm_num)
      linarith
    calc Real.exp (-((now - post.createdAt) / (1000 * 60 * 60) / 24) * 0.5)
        ≤ Real.exp 0 := Real.exp_le_exp.mpr harg
      _ = 1 := Real.exp_zero
  · unfold calculateEngagementScore
    have hbase : (0:ℝ) ≤ (post.likesCount : ℝ) * 1 + (post.commentsCount : ℝ) * 2 := by
      positivity
    have hlogb : (0:ℝ) ≤
        Real.logb 10 ((post.likesCount : ℝ) * 1 + (post.commentsCount : ℝ) * 2 + 1) :=
      Real.logb_nonneg (by norm_num) (by linarith)
    split_ifs with hv
    · have hrate : (0:ℝ) ≤
          ((post.likesCount : ℝ) * 1 + (post.commentsCount : ℝ) * 2) / (post.viewsCount : ℝ) :=
        div_nonneg hbase (by positivity)
      linarith
    · linarith
  · unfold calculatePostScore
    exact ⟨le_min (by norm_num) (le_max_left _ _), min_le_left _ _⟩

/-- Claim C1 (witness): the bounds theorem applied at `now = 0` to the
bare post created at time 0, discharging the no-future-post hypothesis. -/
theorem factorAndFinalScoreBounds_witness :
    basePost.createdAt ≤ (0:ℝ) ∧ calculateRecencyScore 0 basePost ≤ 1 :=
  ⟨le_refl 0, factorAndFinalScoreBounds.2.1 0 basePost (le_refl 0)⟩

/-! ### C7: the minimum-score filter -/

/-- Claim C7: the filter stage of `generateFeed` retains a scored
candidate exactly when its final (already 0-100 scaled) score is at
least the literal `MIN_SCORE = 0.1`; the threshold is 0.1, not 10. -/
theorem minScoreFilterThreshold :
    MIN_SCORE = 0.1 ∧ MIN_SCORE < 10 ∧
    ∀ (now : ℝ) (user : User) (context : FeedContext) (candidates : List Post)
      (i : ScoredPost),
      i ∈ filterByMinScore (scoreCandidates now user context candidates) ↔
        i ∈ scoreCandidates now user context candidates ∧ MIN_SCORE ≤ i.score := by
  refine ⟨rfl, by norm_num [MIN_SCORE], fun now user context candidates i => ?_⟩
  simp [filterByMinScore, List.mem_filter]

/-- Claim C7 (witness): a concrete retained candidate — `basePost`
scored at `now = 0` stays in the filtered list. -/
theorem minScoreFilterThreshold_witness :
    MIN_SCORE = 0.1 ∧
    ((⟨basePost, calculatePostScore 0 basePost (some user0)
        { seenAuthors := some [], seenTags := [] }⟩ : ScoredPost) ∈
      filterByMinScore (scoreCandidates 0 user0
        { seenAuthors := some [], seenTags := [] } [basePost]) ↔
      (⟨basePost, calculatePostScore 0 basePost (some user0)
        { seenAuthors := some [], seenTags := [] }⟩ : ScoredPost) ∈
        scoreCandidates 0 user0 { seenAuthors := some [], seenTags := [] } [basePost] ∧
      MIN_SCORE ≤ calculatePostScore 0 basePost (some user0)
        { seenAuthors := some [], seenTags := [] }) :=
  ⟨minScoreFilterThreshold.1,
    minScoreFilterThreshold.2.2 0 user0 { seenAuthors := some [], seenTags := [] } [basePost] _⟩

/-! ### C6: behaviour on an unresolved viewer id -/

/-- Claim C6 (counterexample): `getDiscoveryFeed` does fail when the
viewer id does not resolve — reading `.following` of the null lookup
result throws a TypeError. -/
theorem discoveryFailsOnUnresolvedViewer_cx :
    getDiscoveryFeed (fun _ => none) (fun _ _ => []) "ghost" 20 =
      .error "TypeError: Cannot read properties of null (reading 'following')" := rfl

/-- Claim C6 (amended): `generateFeed` fails (with 'User not found')
exactly when the viewer id does not resolve; `getTrendingPosts` consults
no viewer at all, so it cannot fail that way; but `getDiscoveryFeed`
also fails exactly when the viewer id does not resolve (a TypeError from
reading `.following` of null), contrary to the claim. -/
theorem viewerResolutionBehavior :
    ∀ (findUser : String → Option User) (fetchCandidates : User → ℕ → List Post)
      (queryDiscovery : List String → ℕ → List Post) (queryTrending : ℕ → List Post)
      (now : ℝ) (userId : String) (opts : FeedOptions) (limit : ℕ),
      ((generateFeed findUser fetchCandidates now userId opts).isOk = (findUser userId).isSome) ∧
      (getTrendingPosts queryTrending limit = queryTrending limit) ∧
      ((getDiscoveryFeed findUser queryDiscovery userId limit).isOk =
        (findUser userId).isSome) := by
  intro findUser fetchCandidates queryDiscovery queryTrending now userId opts limit
  refine ⟨?_, rfl, ?_⟩ <;>
    cases h : findUser userId <;>
    simp [generateFeed, getDiscoveryFeed, h, Except.isOk, Except.toBool]

/-! ### C5: diversity sampling invariants -/

/-- Number of items of `l` whose author key is `k`. -/
def countAuthor (l : List ScoredPost) (k : Option String) : ℕ :=
  l.countP (fun i => decide (authorKey i.post = k))

/-- Number of items of `l` whose tag list contains `t`. -/
def countTag (l : List ScoredPost) (t : String) : ℕ :=
  l.countP (fun i => decide (t ∈ i.post.tags))

lemma countAuthor_append (l m : List ScoredPost) (k : Option String) :
    countAuthor (l ++ m) k = countAuthor l k + countAuthor m k := by
  simp [countAuthor, List.countP_append]

lemma countTag_append (l m : List ScoredPost) (t : String) :
    countTag (l ++ m) t = countTag l t + countTag m t := by
  simp [countTag, List.countP_append]

lemma countAuthor_singleton (i : ScoredPost) (k : Option String) :
    countAuthor [i] k = if authorKey i.post = k then 1 else 0 := by
  simp [countAuthor, List.countP_cons, List.countP_nil]

lemma countTag_singleton (i : ScoredPost) (t : String) :
    countTag [i] t = if t ∈ i.post.tags then 1 else 0 := by
  simp [countTag, List.countP_cons, List.countP_nil]

/-- Effect of the tag-counter update loop
(`for tag of post.tags: tagCounts.set(tag, (tagCounts.get(tag) || 0) + 1)`):
each key gains the number of occurrences of that key in the tag list. -/
lemma tagFold_apply (tags : List String) (tC : String → ℕ) (t : String) :
    (tags.foldl (fun m tag => fun k => if k = tag then m tag + 1 else m k) tC) t =
      tC t + tags.count t := by
  induction tags generalizing tC with
  | nil => simp
  | cons a l ih =>
    simp only [List.foldl_cons]
    rw [ih]
    by_cases h : t = a
    · subst h
      simp [List.count_cons]
      omega
    · have hba : ¬(a = t) := fun hh => h hh.symm
      simp [List.count_cons, h, hba]

/-- Invariant induction for the diversity-sampling loop: if the counter
maps dominate the counts in the accumulated result, every author count
is at most 2 and every tag count at most 3, and the accumulator is
strictly below the `limit * 2` cap, then the final output keeps the
author cap 2, the tag cap 3, and the size cap `limit * 2`. -/
lemma diversityGo_bounds (limit : ℕ) :
    ∀ (l result : List ScoredPost) (aC : Option String → ℕ) (tC : String → ℕ),
      (∀ k, countAuthor result k = aC k) →
      (∀ k, aC k ≤ 2) →
      (∀ t, countTag result t ≤ tC t) →
      (∀ t, countTag result t ≤ 3) →
      result.length < limit * 2 →
      (∀ k, countAuthor (diversityGo limit l result aC tC) k ≤ 2) ∧
      (∀ t, countTag (diversityGo limit l result aC tC) t ≤ 3) ∧
      (diversityGo limit l result aC tC).length ≤ limit * 2 := by
  intro l
  induction l with
  | nil =>
    intro result aC tC hA hA2 hT hT3 hlen
    refine ⟨fun k => ?_, fun t => ?_, ?_⟩ <;> simp only [diversityGo]
    · rw [hA]
      exact hA2 k
    · exact hT3 t
    · omega
  | cons item rest ih =>
    intro result aC tC hA hA2 hT hT3 hlen
    simp only [diversityGo]
    split_ifs with h1 h2 h3
    · exact ih result aC tC hA hA2 hT hT3 hlen
    · exact ih result aC tC hA hA2 hT hT3 hlen
    all_goals
      have hA' : ∀ k, countAuthor (result ++ [item]) k =
          (if k = authorKey item.post then aC (authorKey item.post) + 1 else aC k) := by
        intro k
        by_cases hk : k = authorKey item.post
        · subst hk
          simp [countAuthor_append, countAuthor_singleton, hA]
        · have hk2 : ¬(authorKey item.post = k) := fun hh => hk hh.symm
          simp [countAuthor_append, countAuthor_singleton, hA, hk, hk2]
    all_goals
      have hA2' : ∀ k,
          (if k = authorKey item.post then aC (authorKey item.post) + 1 else aC k) ≤ 2 := by
        intro k
        by_cases hk : k = authorKey item.post
        · rw [if_pos hk]
          omega
        · rw [if_neg hk]
          exact hA2 k
    all_goals
      have hTagsmall : ∀ t ∈ item.post.tags, tC t < 3 := by
        intro t ht
        by_contra hge
        exact h2 (List.any_eq_true.mpr ⟨t, ht, by simpa using Nat.le_of_not_lt hge⟩)
    all_goals
      have hT3' : ∀ t, countTag (result ++ [item]) t ≤ 3 := by
        intro t
        rw [countTag_append, countTag_singleton]
        by_cases hmem : t ∈ item.post.tags
        · have := hT t
          have := hTagsmall t hmem
          simp only [hmem, if_pos]
          omega
        · simp [hmem]
          exact hT3 t
    · -- break: the output is `result ++ [item]`
      refine ⟨fun k => ?_, hT3', ?_⟩
      · rw [hA' k]
        exact hA2' k
      · simp only [List.length_append, List.length_singleton]
        omega
    · -- continue with updated counters
      apply ih (result ++ [item])
      · exact fun k => hA' k
      · exact fun k => hA2' k
      · intro t
        rw [countTag_append, countTag_singleton, tagFold_apply]
        by_cases hmem : t ∈ item.post.tags
        · have hc1 : 1 ≤ item.post.tags.count t := List.count_pos_iff_mem.mpr hmem
          have := hT t
          simp only [hmem, if_pos]
          omega
        · have := hT t
          simp [hmem]
          omega
      · exact hT3'
      · simp only [List.length_append, List.length_singleton] at h3 ⊢
        omega

/-- Claim C5 (amended): for every input list and every `limit ≥ 1` (the
interface requires a positive page size), the diversity-sampled pool has
at most 2 items per author key, at most 3 items sharing any one tag, and
at most `2 * limit` items; and a skipped candidate (author already at
cap, or some tag already at cap) leaves the result and both counter maps
untouched.  For `limit = 0` the size cap fails (see the counterexample):
the `break` runs only after the push, so one item is still emitted. -/
theorem diversitySamplingCaps :
    (∀ (scoredPosts : List ScoredPost) (limit : ℕ), 1 ≤ limit →
      (∀ k, countAuthor (applyDiversitySampling scoredPosts limit) k ≤ 2) ∧
      (∀ t, countTag (applyDiversitySampling scoredPosts limit) t ≤ 3) ∧
      (applyDiversitySampling scoredPosts limit).length ≤ limit * 2) ∧
    (∀ (limit : ℕ) (item : ScoredPost) (rest result : List ScoredPost)
      (aC : Option String → ℕ) (tC : String → ℕ),
      2 ≤ aC (authorKey item.post) →
      diversityGo limit (item :: rest) result aC tC = diversityGo limit rest result aC tC) ∧
    (∀ (limit : ℕ) (item : ScoredPost) (rest result : List ScoredPost)
      (aC : Option String → ℕ) (tC : String → ℕ),
      ¬2 ≤ aC (authorKey item.post) →
      item.post.tags.any (fun tag => decide (3 ≤ tC tag)) = true →
      diversityGo limit (item :: rest) result aC tC = diversityGo limit rest result aC tC) := by
  refine ⟨fun scoredPosts limit hl => ?_, fun limit item rest result aC tC h => ?_,
    fun limit item rest result aC tC h1 h2 => ?_⟩
  · exact diversityGo_bounds limit scoredPosts [] (fun _ => 0) (fun _ => 0)
      (fun k => by simp [countAuthor]) (fun k => by simp)
      (fun t => by simp [countTag]) (fun t => by simp [countTag])
      (by simp only [List.length_nil]; omega)
  · simp only [diversityGo]
    rw [if_pos h]
  · simp only [diversityGo]
    rw [if_neg h1, if_pos h2]

/-- A minimal scored item over the bare post. -/
noncomputable def scored0 : ScoredPost := ⟨basePost, 0⟩

/-- Claim C5 (counterexample): with `limit = 0` the sampler still emits
one item from a one-item input, exceeding the claimed `2 * limit = 0`
total cap — the `break` check runs only after the push. -/
theorem diversitySamplingCaps_cx :
    (applyDiversitySampling [scored0] 0).length = 1 ∧
    ¬(applyDiversitySampling [scored0] 0).length ≤ 0 * 2 := by
  have h : applyDiversitySampling [scored0] 0 = [scored0] := by
    simp [applyDiversitySampling, diversityGo, scored0, authorKey, basePost, author0]
  rw [h]
  simp

/-- A scored item carrying one tag. -/
noncomputable def taggedScored : ScoredPost := ⟨{ basePost with tags := ["t"] }, 0⟩

/-- Claim C5 (witness): the caps theorem applied at `limit = 1` to a
one-item list, and both skip equations applied at saturated counter
maps. -/
theorem diversitySamplingCaps_witness :
    (1:ℕ) ≤ 1 ∧
    countAuthor (applyDiversitySampling [scored0] 1) (some "a") ≤ 2 ∧
    countTag (applyDiversitySampling [scored0] 1) "t" ≤ 3 ∧
    (applyDiversitySampling [scored0] 1).length ≤ 1 * 2 ∧
    diversityGo 1 [scored0] [] (fun _ => 2) (fun _ => 0) =
      diversityGo 1 [] [] (fun _ => 2) (fun _ => 0) ∧
    diversityGo 1 [taggedScored] [] (fun _ => 0) (fun _ => 3) =
      diversityGo 1 [] [] (fun _ => 0) (fun _ => 3) :=
  ⟨le_refl 1,
    (diversitySamplingCaps.1 [scored0] 1 (le_refl 1)).1 (some "a"),
    (diversitySamplingCaps.1 [scored0] 1 (le_refl 1)).2.1 "t",
    (diversitySamplingCaps.1 [scored0] 1 (le_refl 1)).2.2,
    diversitySamplingCaps.2.1 1 scored0 [] [] (fun _ => 2) (fun _ => 0) (le_refl 2),
    diversitySamplingCaps.2.2 1 taggedScored [] [] (fun _ => 0) (fun _ => 3)
      (by simp) (by simp [taggedScored])⟩

/-! ### C9: page structure of a successful feed -/

/-- The diversity loop appends a subsequence of its remaining input to
the accumulated result. -/
lemma diversityGo_sublist (limit : ℕ) :
    ∀ (l result : List ScoredPost) (aC : Option String → ℕ) (tC : String → ℕ),
      ∃ s, diversityGo limit l result aC tC = result ++ s ∧ s.Sublist l := by
  intro l
  induction l with
  | nil =>
    intro result aC tC
    exact ⟨[], by simp [diversityGo], List.nil_sublist _⟩
  | cons item rest ih =>
    intro result aC tC
    simp only [diversityGo]
    split_ifs with h1 h2 h3
    · obtain ⟨s, hs, hsub⟩ := ih result aC tC
      exact ⟨s, hs, hsub.cons _⟩
    · obtain ⟨s, hs, hsub⟩ := ih result aC tC
      exact ⟨s, hs, hsub.cons _⟩
    · exact ⟨[item], rfl, (List.nil_sublist rest).cons₂ item⟩
    · obtain ⟨s, hs, hsub⟩ := ih (result ++ [item]) _ _
      refine ⟨item :: s, ?_, hsub.cons₂ item⟩
      rw [hs, List.append_assoc]
      rfl

/-- The diversity-sampled pool is a subsequence of its input list. -/
lemma applyDiversitySampling_sublist (l : List ScoredPost) (limit : ℕ) :
    (applyDiversitySampling l limit).Sublist l := by
  obtain ⟨s, hs, hsub⟩ := diversityGo_sublist limit l [] (fun _ => 0) (fun _ => 0)
  unfold applyDiversitySampling
  rw [hs]
  simpa using hsub

open Classical in
/-- The sort stage really sorts by descending score. -/
lemma sortByScoreDesc_sorted (l : List ScoredPost) : (sortByScoreDesc l).Sorted scoreGE :=
  List.sorted_insertionSort scoreGE l

open Classical in
/-- The sort stage is a permutation of its input. -/
lemma sortByScoreDesc_perm (l : List ScoredPost) : (sortByScoreDesc l).Perm l :=
  List.perm_insertionSort scoreGE l

/-- Every element of the scoring stage output carries the score computed
from its own post. -/
lemma scoreCandidates_score (now : ℝ) (user : User) (context : FeedContext)
    (candidates : List Post) (i : ScoredPost)
    (h : i ∈ scoreCandidates now user context candidates) :
    i.score = calculatePostScore now i.post (some user) context := by
  obtain ⟨post, hmem, hi⟩ := List.mem_map.mp h
  rw [← hi]

/-- Membership chain: an item of the paginated slice comes from the
scoring stage. -/
lemma paginated_mem_scored (now : ℝ) (user : User) (context : FeedContext)
    (candidates : List Post) (limit skip n : ℕ) (i : ScoredPost)
    (h : i ∈ ((applyDiversitySampling
        (sortByScoreDesc (filterByMinScore (scoreCandidates now user context candidates)))
        limit).drop skip).take n) :
    i ∈ scoreCandidates now user context candidates := by
  have h1 : i ∈ applyDiversitySampling
      (sortByScoreDesc (filterByMinScore (scoreCandidates now user context candidates)))
      limit :=
    ((List.take_sublist _ _).trans (List.drop_sublist _ _)).mem h
  have h2 : i ∈ sortByScoreDesc (filterByMinScore (scoreCandidates now user context candidates)) :=
    (applyDiversitySampling_sublist _ _).mem h1
  have h3 : i ∈ filterByMinScore (scoreCandidates now user context candidates) :=
    (sortByScoreDesc_perm _).mem_iff.mp h2
  exact (List.filter_sublist _).mem h3

/-- Claim C9: a successful `generateFeed` returns an `ok` page in which
`posts` and `scores` have equal length, `scores` is precisely the list
of computed final post scores of `posts`, `scores` is non-increasing,
and the diversity-sampled pool is a subsequence of the score-sorted
filtered candidate list. -/
theorem feedPageInvariants :
    ∀ (findUser : String → Option User) (fetchCandidates : User → ℕ → List Post) (now : ℝ)
      (userId : String) (opts : FeedOptions) (user : User),
      findUser userId = some user →
      generateFeed findUser fetchCandidates now userId opts =
        .ok (generateFeedCore now user (fetchCandidates user (opts.limit * 3)) opts) ∧
      ((generateFeedCore now user (fetchCandidates user (opts.limit * 3)) opts).posts.length =
        (generateFeedCore now user (fetchCandidates user (opts.limit * 3)) opts).scores.length) ∧
      ((generateFeedCore now user (fetchCandidates user (opts.limit * 3)) opts).scores =
        (generateFeedCore now user (fetchCandidates user (opts.limit * 3)) opts).posts.map
          (fun p => calculatePostScore now p (some user)
            { seenAuthors := some opts.seenAuthors, seenTags := opts.seenTags })) ∧
      List.Sorted (fun a b : ℝ => b ≤ a)
        (generateFeedCore now user (fetchCandidates user (opts.limit * 3)) opts).scores ∧
      (applyDiversitySampling
        (sortByScoreDesc (filterByMinScore (scoreCandidates now user
          { seenAuthors := some opts.seenAuthors, seenTags := opts.seenTags }
          (fetchCandidates user (opts.limit * 3))))) opts.limit).Sublist
        (sortByScoreDesc (filterByMinScore (scoreCandidates now user
          { seenAuthors := some opts.seenAuthors, seenTags := opts.seenTags }
          (fetchCandidates user (opts.limit * 3))))) := by
  intro findUser fetchCandidates now userId opts user h
  refine ⟨by simp [generateFeed, h], ?_, ?_, ?_, applyDiversitySampling_sublist _ _⟩
  · simp [generateFeedCore]
  · simp only [generateFeedCore, List.map_map]
    apply List.map_congr_left
    intro i hi
    exact scoreCandidates_score _ _ _ _ _ (paginated_mem_scored _ _ _ _ _ _ _ _ hi)
  · simp only [generateFeedCore]
    refine List.Pairwise.map _ (fun a b (hab : scoreGE a b) => hab) ?_
    refine List.Pairwise.sublist ((List.take_sublist _ _).trans (List.drop_sublist _ _)) ?_
    refine List.Pairwise.sublist (applyDiversitySampling_sublist _ _) ?_
    exact sortByScoreDesc_sorted _

/-- Options `page = 1, limit = 20` with no exclusions. -/
def opts20 : FeedOptions :=
  { page := 1, limit := 20, excludeIds := [], seenAuthors := [], seenTags := [] }

/-- Claim C9 (witness): the theorem applied to a resolving viewer lookup
with an empty candidate pool. -/
theorem feedPageInvariants_witness :
    (fun _ : String => some user0) "u" = some user0 ∧
    (generateFeedCore 0 user0 ((fun _ _ => []) user0 (opts20.limit * 3)) opts20).posts.length =
      (generateFeedCore 0 user0 ((fun _ _ => []) user0 (opts20.limit * 3)) opts20).scores.length :=
  ⟨rfl, (feedPageInvariants (fun _ => some user0) (fun _ _ => []) 0 "u" opts20 user0 rfl).2.1⟩

/-! ### C2: pages beyond the sampled pool -/

/-- Claim C2 (amended): when `(page - 1) * limit` is at least the size
of the diversity-sampled pool, `generateFeed` returns successfully with
an empty `posts` (and `scores`) array — but `hasMore` is computed from
the pre-diversity filtered count, `skip + limit < total`, and may still
be `true` (see the counterexample). -/
theorem emptyPageBeyondPool :
    ∀ (findUser : String → Option User) (fetchCandidates : User → ℕ → List Post) (now : ℝ)
      (userId : String) (opts : FeedOptions) (user : User),
      findUser userId = some user →
      (applyDiversitySampling (sortByScoreDesc (filterByMinScore (scoreCandidates now user
        { seenAuthors := some opts.seenAuthors, seenTags := opts.seenTags }
        (fetchCandidates user (opts.limit * 3))))) opts.limit).length ≤
        (opts.page - 1) * opts.limit →
      generateFeed findUser fetchCandidates now userId opts =
        .ok (generateFeedCore now user (fetchCandidates user (opts.limit * 3)) opts) ∧
      (generateFeedCore now user (fetchCandidates user (opts.limit * 3)) opts).posts = [] ∧
      (generateFeedCore now user (fetchCandidates user (opts.limit * 3)) opts).scores = [] ∧
      (generateFeedCore now user (fetchCandidates user (opts.limit * 3)) opts).pagination.hasMore =
        decide ((opts.page - 1) * opts.limit + opts.limit <
          (filterByMinScore (scoreCandidates now user
            { seenAuthors := some opts.seenAuthors, seenTags := opts.seenTags }
            (fetchCandidates user (opts.limit * 3)))).length) := by
  intro findUser fetchCandidates now userId opts user h hlen
  refine ⟨by simp [generateFeed, h], ?_, ?_, rfl⟩ <;>
    simp only [generateFeedCore, List.drop_eq_nil_of_le hlen, List.take_nil, List.map_nil]

/-- Claim C2 (witness): the amended theorem applied to an empty
candidate pool, where the sampled pool has size `0 ≤ (page-1)*limit`. -/
theorem emptyPageBeyondPool_witness :
    (fun _ : String => some user0) "u" = some user0 ∧
    (applyDiversitySampling (sortByScoreDesc (filterByMinScore (scoreCandidates 0 user0
      { seenAuthors := some opts20.seenAuthors, seenTags := opts20.seenTags }
      ((fun _ _ => []) user0 (opts20.limit * 3))))) opts20.limit).length ≤
      (opts20.page - 1) * opts20.limit ∧
    (generateFeedCore 0 user0 ((fun _ _ => []) user0 (opts20.limit * 3)) opts20).posts = [] :=
  ⟨rfl, Nat.le_refl 0,
    (emptyPageBeyondPool (fun _ => some user0) (fun _ _ => []) 0 "u" opts20 user0 rfl
      (Nat.le_refl 0)).2.1⟩

lemma basePost_recency : calculateRecencyScore 0 basePost = 1 := by
  simp only [calculateRecencyScore, HALF_LIFE_HOURS, TIME_DECAY_FACTOR, basePost]
  norm_num [Real.exp_zero]

lemma basePost_engagement : calculateEngagementScore basePost = 0 := by
  simp only [calculateEngagementScore, basePost]
  norm_num [Real.logb_one]

lemma basePost_relationship : calculateRelationshipScore basePost (some user0) = 0.1 := by
  simp [calculateRelationshipScore, basePost, user0, author0, strTruthy]

lemma basePost_quality : calculateQualityScore basePost = 0.1 := by
  simp +decide [calculateQualityScore, qualityStep, basePost, author0]

/-- The final score of the bare post for viewer `user0` at `now = 0`:
`(1·0.20 + 0·0.25 + 0.1·0.25 + 0.1·0.15 + 0.1·0.15) · 1.5 · 1.1 · 100 = 42.075`. -/
lemma basePost_score :
    calculatePostScore 0 basePost (some user0) { seenAuthors := some [], seenTags := [] } =
      1683 / 40 := by
  simp only [calculatePostScore, basePost_recency, basePost_engagement,
    basePost_relationship, basePost_quality, calculateRelevanceScore, W_RECENCY, W_ENGAGEMENT,
    W_RELATIONSHIP, W_QUALITY, W_RELEVANCE]
  simp only [applyBoosts, basePost, author0, Option.elim]
  norm_num [min_def, max_def]

/-- Four identical bare candidates (one shared author). -/
noncomputable def fourPosts : List Post := [basePost, basePost, basePost, basePost]

/-- Page 3 with page size 1: `skip = 2`. -/
def optsPage3 : FeedOptions :=
  { page := 3, limit := 1, excludeIds := [], seenAuthors := [], seenTags := [] }

/-- The bare post paired with its computed final score. -/
noncomputable def scoredBase : ScoredPost := ⟨basePost, 1683 / 40⟩

lemma scored_fourPosts :
    scoreCandidates 0 user0 { seenAuthors := some [], seenTags := [] } fourPosts =
      [scoredBase, scoredBase, scoredBase, scoredBase] := by
  simp [scoreCandidates, fourPosts, basePost_score, scoredBase]

lemma filter_four :
    filterByMinScore [scoredBase, scoredBase, scoredBase, scoredBase] =
      [scoredBase, scoredBase, scoredBase, scoredBase] := by
  have hp : MIN_SCORE ≤ (1683 / 40 : ℝ) := by norm_num [MIN_SCORE]
  simp [filterByMinScore, List.filter_cons, decide_eq_true_eq, scoredBase, hp]

open Classical in
lemma sort_four :
    sortByScoreDesc [scoredBase, scoredBase, scoredBase, scoredBase] =
      [scoredBase, scoredBase, scoredBase, scoredBase] := by
  have hsorted : List.Sorted scoreGE [scoredBase, scoredBase, scoredBase, scoredBase] := by
    simp [List.Sorted, List.pairwise_cons, scoreGE]
  unfold sortByScoreDesc
  exact List.Sorted.insertionSort_eq hsorted

lemma diverse_four :
    applyDiversitySampling [scoredBase, scoredBase, scoredBase, scoredBase] 1 =
      [scoredBase, scoredBase] := by
  simp +decide [applyDiversitySampling, diversityGo, scoredBase, authorKey, basePost, author0]

lemma core_four :
    generateFeedCore 0 user0 fourPosts optsPage3 =
      { posts := [], scores := [],
        pagination := { page := 3, limit := 1, total := 4, hasMore := true } } := by
  simp [generateFeedCore, optsPage3, scored_fourPosts, filter_four, sort_four, diverse_four]

/-- Claim C2 (counterexample): with four identically scored candidates
from one author, `limit = 1` and `page = 3`, the skip (2) reaches the
size of the diversity-sampled pool (2), and the result indeed has an
empty `posts` array — but `hasMore` is `true` (2 + 1 < 4 filtered
candidates), not `false` as the claim asserts. -/
theorem emptyPageBeyondPool_cx :
    (applyDiversitySampling (sortByScoreDesc (filterByMinScore (scoreCandidates 0 user0
      { seenAuthors := some [], seenTags := [] } fourPosts))) 1).length ≤
      (optsPage3.page - 1) * optsPage3.limit ∧
    (generateFeed (fun _ => some user0) (fun _ _ => fourPosts) 0 "u" optsPage3).map
      (fun r => r.posts) = .ok [] ∧
    (generateFeed (fun _ => some user0) (fun _ _ => fourPosts) 0 "u" optsPage3).map
      (fun r => r.pagination.hasMore) = .ok true := by
  have hfeed : generateFeed (fun _ => some user0) (fun _ _ => fourPosts) 0 "u" optsPage3 =
      .ok (generateFeedCore 0 user0 fourPosts optsPage3) := by
    simp [generateFeed]
  refine ⟨?_, ?_, ?_⟩
  · rw [scored_fourPosts, filter_four, sort_four, diverse_four]
    simp [optsPage3]
  · rw [hfeed, core_four]
    rfl
  · rw [hfeed, core_four]
    rfl
